import Mathlib

/-!
Shallow embedding of the AptoraExtensions backend core: the dual-database
connection manager (`backend/internal/database`, file `database.go` in its
current form with read-only verification and target-database safety check)
and the HTTP handlers `handleHealth` and `handleInvoices`
(`backend/internal/server/server.go`).

Database I/O is modelled by an environment record (`ConnEnv`) supplying the
outcome of each fallible driver call made during one connection cycle, in
the order the Go code makes them.  The statements actually issued, together
with the context timeout each call carries in the Go source (`Ping()` is
issued without a context; the read-only probe runs under a 5-second context;
the schema statements under a 10-second context), are collected in a trace.
The bookkeeping `health_check` table of the Extensions database is modelled
explicitly so that audit-row counting is provable.
-/

deriving instance DecidableEq for Except

namespace AptoraExtensions

/-- Mirror of `database.Config` (database.go). -/
structure Config where
  Host : String
  Port : String
  Encrypt : String
  AptoraDBName : String
  AptoraDBUser : String
  AptoraDBPassword : String
  ExtensionsDBName : String
  ExtensionsDBUser : String
  ExtensionsDBPassword : String
  deriving Repr, DecidableEq

/-- The mutable fields of `database.Manager` (database.go): the two handle
pointers (modelled as opaque handle identifiers), the health flag and the
error message.  `nil` handles are `none`. -/
structure ManagerState where
  aptoraDB : Option Nat
  extensionsDB : Option Nat
  healthy : Bool
  errMsg : String
  deriving Repr, DecidableEq

/-- `NewManager` (database.go): zero-valued handles, `healthy: false`,
empty error message. -/
def NewManager : ManagerState :=
  { aptoraDB := none, extensionsDB := none, healthy := false, errMsg := "" }

/-- `setUnhealthy` (database.go): sets the health flag to false and records
the error message; handles are not touched. -/
def setUnhealthy (errMsg : String) (st : ManagerState) : ManagerState :=
  { st with healthy := false, errMsg := errMsg }

/-- `IsHealthy` (database.go): snapshot of the health flag and message. -/
def IsHealthy (st : ManagerState) : Bool × String :=
  (st.healthy, st.errMsg)

/-- The SQL-level operations one connection cycle can issue, as they appear
in database.go. -/
inductive DbOp
  | pingAptora
  | pingExtensions
  | execCreateProbeTable
  | execDropProbeTable
  | querySelectDbName
  | execCreateHealthCheckTable
  | execInsertHealthCheckRow
  deriving Repr, DecidableEq

/-- One issued driver call together with the timeout (in seconds) of the
`context.Context` it was issued under; `none` when the Go code passes no
context (plain `db.Ping()`). -/
structure Issued where
  op : DbOp
  timeoutSeconds : Option Nat
  deriving Repr, DecidableEq

/-- The bookkeeping state of the Extensions database: the `health_check`
table is `none` while it does not exist, otherwise the list of its rows
(each row holding its `timestamp`). -/
structure ExtDb where
  healthCheck : Option (List Nat)
  deriving Repr, DecidableEq

/-- Number of audit rows currently in the `health_check` table. -/
def ExtDb.rowCount (d : ExtDb) : Nat :=
  (d.healthCheck.getD []).length

/-- Effect of `createTableSQL` (database.go): `IF NOT EXISTS ... CREATE
TABLE health_check` — creates the empty table when absent, leaves an
existing table and all its rows untouched. -/
def createHealthCheckTable (d : ExtDb) : ExtDb :=
  match d.healthCheck with
  | none => { healthCheck := some [] }
  | some rows => { healthCheck := some rows }

/-- Effect of `insertSQL` (database.go): appends one row holding the current
server timestamp (`SYSDATETIME()`); no update or delete path exists. -/
def insertHealthCheckRow (now : Nat) (d : ExtDb) : ExtDb :=
  match d.healthCheck with
  | none => { healthCheck := none }
  | some rows => { healthCheck := some (rows ++ [now]) }

/-- Environment for one connection cycle: the outcome of every fallible
driver call `tryConnect` (database.go) can make, in source order, plus the
fresh handle identities the two `sql.Open` calls would produce and the
server clock value `SYSDATETIME()` would report. -/
structure ConnEnv where
  openAptoraErr : Option String
  pingAptoraErr : Option String
  probeWriteSucceeds : Bool
  openExtensionsErr : Option String
  pingExtensionsErr : Option String
  dbNameResult : Except String String
  createTableErr : Option String
  insertErr : Option String
  freshAptoraId : Nat
  freshExtensionsId : Nat
  now : Nat
  deriving Repr, DecidableEq

/-- Result of `verifyReadOnly` (database.go). -/
structure VerifyResult where
  result : Except String Unit
  trace : List Issued
  deriving Repr, DecidableEq

/-- `verifyReadOnly` (database.go): attempts
`CREATE TABLE aptora_extensions_readonly_test (id INT)` under a 5-second
context.  If that exec FAILS the connection is verified read-only and the
function returns success.  If it SUCCEEDS the probe table is dropped
(best-effort) and a distinct NOT-read-only error is returned. -/
def verifyReadOnly (env : ConnEnv) : VerifyResult :=
  if env.probeWriteSucceeds then
    { result := Except.error "connection is NOT read-only - write operations are allowed",
      trace := [⟨DbOp.execCreateProbeTable, some 5⟩, ⟨DbOp.execDropProbeTable, some 5⟩] }
  else
    { result := Except.ok (),
      trace := [⟨DbOp.execCreateProbeTable, some 5⟩] }

/-- Result of `initializeExtensionsSchema` (database.go). -/
structure InitResult where
  result : Except String Unit
  extDb : ExtDb
  trace : List Issued
  deriving Repr, DecidableEq

/-- `initializeExtensionsSchema` (database.go): under a 10-second context,
queries `SELECT DB_NAME()` on the read-write handle, refuses with an error
when the reported name differs from the expected Extensions database name,
and only otherwise creates the `health_check` table (if absent) and inserts
one audit row. -/
def initializeExtensionsSchema (env : ConnEnv) (expectedDBName : String)
    (d : ExtDb) : InitResult :=
  match env.dbNameResult with
  | Except.error e =>
    { result := Except.error ("failed to verify database name: " ++ e),
      extDb := d,
      trace := [⟨DbOp.querySelectDbName, some 10⟩] }
  | Except.ok actualDBName =>
    if actualDBName ≠ expectedDBName then
      { result := Except.error ("safety check failed: expected Extensions database \"" ++
          expectedDBName ++ "\" but connected to \"" ++ actualDBName ++
          "\" - refusing to initialize schema"),
        extDb := d,
        trace := [⟨DbOp.querySelectDbName, some 10⟩] }
    else
      match env.createTableErr with
      | some e =>
        { result := Except.error ("failed to create health_check table: " ++ e),
          extDb := d,
          trace := [⟨DbOp.querySelectDbName, some 10⟩,
                    ⟨DbOp.execCreateHealthCheckTable, some 10⟩] }
      | none =>
        let d1 := createHealthCheckTable d
        match env.insertErr with
        | some e =>
          { result := Except.error ("failed to insert health check row: " ++ e),
            extDb := d1,
            trace := [⟨DbOp.querySelectDbName, some 10⟩,
                      ⟨DbOp.execCreateHealthCheckTable, some 10⟩,
                      ⟨DbOp.execInsertHealthCheckRow, some 10⟩] }
        | none =>
          { result := Except.ok (),
            extDb := insertHealthCheckRow env.now d1,
            trace := [⟨DbOp.querySelectDbName, some 10⟩,
                      ⟨DbOp.execCreateHealthCheckTable, some 10⟩,
                      ⟨DbOp.execInsertHealthCheckRow, some 10⟩] }

/-- Result of one `tryConnect` invocation (database.go): the manager state
after the cycle, the Extensions bookkeeping state, the trace of issued
driver calls and the identities of the handles closed during the cycle. -/
structure CycleResult where
  mgr : ManagerState
  extDb : ExtDb
  trace : List Issued
  closed : List Nat
  deriving Repr, DecidableEq

/-- `tryConnect` (database.go), step by step in source order: open the
Aptora handle, `Ping()` it (no context, hence no timeout), verify it is
read-only, open the Extensions handle, `Ping()` it, run
`initializeExtensionsSchema`, and only when every step succeeded close the
previously-current handles and install the new pair with `healthy = true`
and an empty error message.  Every failure branch closes exactly the
handles opened by this cycle, calls `setUnhealthy` and returns. -/
def tryConnect (cfg : Config) (env : ConnEnv) (st : ManagerState)
    (d : ExtDb) : CycleResult :=
  match env.openAptoraErr with
  | some e =>
    { mgr := setUnhealthy ("failed to open Aptora database: " ++ e) st,
      extDb := d, trace := [], closed := [] }
  | none =>
    match env.pingAptoraErr with
    | some e =>
      { mgr := setUnhealthy ("failed to ping Aptora database: " ++ e) st,
        extDb := d,
        trace := [⟨DbOp.pingAptora, none⟩],
        closed := [env.freshAptoraId] }
    | none =>
      let v := verifyReadOnly env
      match v.result with
      | Except.error e =>
        { mgr := setUnhealthy
            ("failed to verify read-only mode for Aptora database: " ++ e) st,
          extDb := d,
          trace := ⟨DbOp.pingAptora, none⟩ :: v.trace,
          closed := [env.freshAptoraId] }
      | Except.ok _ =>
        match env.openExtensionsErr with
        | some e =>
          { mgr := setUnhealthy ("failed to open Extensions database: " ++ e) st,
            extDb := d,
            trace := ⟨DbOp.pingAptora, none⟩ :: v.trace,
            closed := [env.freshAptoraId] }
        | none =>
          match env.pingExtensionsErr with
          | some e =>
            { mgr := setUnhealthy ("failed to ping Extensions database: " ++ e) st,
              extDb := d,
              trace := ⟨DbOp.pingAptora, none⟩ :: v.trace ++ [⟨DbOp.pingExtensions, none⟩],
              closed := [env.freshAptoraId, env.freshExtensionsId] }
          | none =>
            let ini := initializeExtensionsSchema env cfg.ExtensionsDBName d
            match ini.result with
            | Except.error e =>
              { mgr := setUnhealthy ("failed to initialize Extensions schema: " ++ e) st,
                extDb := ini.extDb,
                trace := ⟨DbOp.pingAptora, none⟩ :: v.trace ++
                  ⟨DbOp.pingExtensions, none⟩ :: ini.trace,
                closed := [env.freshAptoraId, env.freshExtensionsId] }
            | Except.ok _ =>
              { mgr := { aptoraDB := some env.freshAptoraId,
                         extensionsDB := some env.freshExtensionsId,
                         healthy := true, errMsg := "" },
                extDb := ini.extDb,
                trace := ⟨DbOp.pingAptora, none⟩ :: v.trace ++
                  ⟨DbOp.pingExtensions, none⟩ :: ini.trace,
                closed := st.aptoraDB.toList ++ st.extensionsDB.toList }

/-- Every fallible step of one cycle succeeds: both opens and pings, the
read-only probe fails (which is the success outcome), the reported database
name matches the expected one, and the two schema statements succeed. -/
def cycleOk (env : ConnEnv) (expectedDBName : String) : Bool :=
  env.openAptoraErr.isNone && env.pingAptoraErr.isNone &&
  !env.probeWriteSucceeds && env.openExtensionsErr.isNone &&
  env.pingExtensionsErr.isNone &&
  (match env.dbNameResult with
   | Except.ok a => a == expectedDBName
   | Except.error _ => false) &&
  env.createTableErr.isNone && env.insertErr.isNone

/-- The retry interval of `connectLoop` (database.go):
`time.NewTicker(30 * time.Second)`. -/
def tickerIntervalSeconds : Nat := 30

/-- One tick of `connectLoop` (database.go): read the health flag; when the
manager is unhealthy run `tryConnect`, otherwise do nothing.  The third
component counts the `tryConnect` invocations made so far. -/
def connectLoopTick (cfg : Config) (p : ManagerState × ExtDb × Nat)
    (env : ConnEnv) : ManagerState × ExtDb × Nat :=
  if p.1.healthy then p
  else
    let r := tryConnect cfg env p.1 p.2.1
    (r.mgr, r.extDb, p.2.2 + 1)

/-- `connectLoop` (database.go) run for finitely many ticks: the first
`tryConnect` happens unconditionally at startup, then each 30-second tick
retries only while unhealthy. -/
def connectLoopRun (cfg : Config) (first : ConnEnv) (ticks : List ConnEnv)
    (d0 : ExtDb) : ManagerState × ExtDb × Nat :=
  let r0 := tryConnect cfg first NewManager d0
  ticks.foldl (connectLoopTick cfg) (r0.mgr, r0.extDb, 1)

/-- N back-to-back connection cycles chained through the manager state and
the Extensions bookkeeping state. -/
def runCycles (cfg : Config) (envs : List ConnEnv) (st : ManagerState)
    (d : ExtDb) : ManagerState × ExtDb :=
  envs.foldl (fun p env =>
    let r := tryConnect cfg env p.1 p.2
    (r.mgr, r.extDb)) (st, d)

/-- Manager states reachable from construction by any sequence of
connection cycles. -/
inductive Reachable : ManagerState → Prop
  | init : Reachable NewManager
  | step (cfg : Config) (env : ConnEnv) (d : ExtDb) {st : ManagerState} :
      Reachable st → Reachable (tryConnect cfg env st d).mgr

/-!
HTTP layer (`backend/internal/server/server.go`).  A JSON object of string
fields is modelled as the list of its key/value pairs in the order the Go
handler puts them into the map literal.
-/

/-- `handleHealth` (server.go): reads the manager health snapshot and
answers 503 with a status/error object when unhealthy, otherwise 200 with
the one-field healthy object. -/
def handleHealth (st : ManagerState) : Nat × List (String × String) :=
  let healthy := (IsHealthy st).1
  let errMsg := (IsHealthy st).2
  if !healthy then
    (503, [("status", "unhealthy"), ("error", errMsg)])
  else
    (200, [("status", "healthy")])

/-- One row of the Aptora `Invoices` table joined with `Employees`, as
selected by `handleInvoices` (server.go): `i.id, i.Date, i.RepID, e.Name,
i.Total`.  Dates are ISO `YYYY-MM-DD` strings, whose lexicographic order
agrees with the SQL date comparison; the employee name is nullable; the
money total is kept abstract as an integer number of cents. -/
structure InvoiceRow where
  id : Int
  date : String
  repID : Int
  name : Option String
  total : Int
  deriving Repr, DecidableEq

/-- SQL date comparison on ISO `YYYY-MM-DD` strings: lexicographic order
of the underlying characters (which is exactly the `String` order). -/
def dateLE (a b : String) : Bool :=
  decide (a.data ≤ b.data)

/-- Strict version of `dateLE`. -/
def dateLT (a b : String) : Bool :=
  decide (a.data < b.data)

/-- The SQL `WHERE` clause shared by the count query and the main query of
`handleInvoices` (server.go): `i.Date >= @p1 AND i.Date <= @p2`, plus
`i.RepID = @p3` when an employee filter is present. -/
def invoiceMatches (startDate endDate : String) (empFilter : Option Int)
    (r : InvoiceRow) : Bool :=
  dateLE startDate r.date && dateLE r.date endDate &&
  (match empFilter with
   | none => true
   | some eid => r.repID == eid)

/-- The `ORDER BY i.Date ASC, i.id ASC` ordering of the main query. -/
def invoiceLE (a b : InvoiceRow) : Bool :=
  dateLT a.date b.date || (a.date == b.date && decide (a.id ≤ b.id))

/-- Insert one row into a list sorted by `invoiceLE`. -/
def insertInvoice (r : InvoiceRow) : List InvoiceRow → List InvoiceRow
  | [] => [r]
  | x :: xs => if invoiceLE r x then r :: x :: xs else x :: insertInvoice r xs

/-- Sort rows by `invoiceLE` (the SQL ordering of the main query). -/
def sortInvoices : List InvoiceRow → List InvoiceRow
  | [] => []
  | x :: xs => insertInvoice x (sortInvoices xs)

/-- The body of a `handleInvoices` response: either the single-field error
object every non-200 branch writes, or the invoices object. -/
inductive InvoicesBody
  | errorObj (msg : String)
  | invoicesObj (rows : List InvoiceRow)
  deriving Repr, DecidableEq

/-- Result of one `handleInvoices` request: the HTTP status, the JSON body,
and whether the main `SELECT` query was executed. -/
structure InvoicesResult where
  status : Nat
  body : InvoicesBody
  mainQueryExecuted : Bool
  deriving Repr, DecidableEq

/-- `handleInvoices` (server.go), over the current read-only handle
(`none` when the manager never connected), the contents of the `Invoices`
table (joined with employee names) and flags for whether the two issued
queries fail at the driver level: validates `start_date`/`end_date`
presence and `employee_id` integrality, runs the count query with the
shared `WHERE` clause, rejects with HTTP 400 when the count exceeds 500
without running the main query, and otherwise runs the main query and
serves the matching rows in SQL order. -/
def handleInvoices (aptoraDB : Option Nat) (table : List InvoiceRow)
    (countQueryFails mainQueryFails : Bool)
    (startDate endDate employeeIDStr : String) : InvoicesResult :=
  match aptoraDB with
  | none =>
    { status := 503, body := InvoicesBody.errorObj "database not available",
      mainQueryExecuted := false }
  | some _ =>
    if startDate = "" || endDate = "" then
      { status := 400,
        body := InvoicesBody.errorObj
          "start_date and end_date are required (YYYY-MM-DD format)",
        mainQueryExecuted := false }
    else
      match (if employeeIDStr = "" then some none
             else (employeeIDStr.toInt?).map some) with
      | none =>
        { status := 400,
          body := InvoicesBody.errorObj "employee_id must be a valid integer",
          mainQueryExecuted := false }
      | some empFilter =>
        if countQueryFails then
          { status := 500,
            body := InvoicesBody.errorObj "failed to count invoices",
            mainQueryExecuted := false }
        else
          let count := (table.filter (invoiceMatches startDate endDate empFilter)).length
          if count > 500 then
            { status := 400,
              body := InvoicesBody.errorObj
                "query would return more than 500 invoices, please use a narrower filter",
              mainQueryExecuted := false }
          else if mainQueryFails then
            { status := 500,
              body := InvoicesBody.errorObj "failed to query invoices",
              mainQueryExecuted := true }
          else
            { status := 200,
              body := InvoicesBody.invoicesObj
                (sortInvoices (table.filter (invoiceMatches startDate endDate empFilter))),
              mainQueryExecuted := true }

/-- `sub` occurs as a contiguous substring of `s` (executable). -/
def containsSubstring (s sub : String) : Bool :=
  (List.range (s.data.length + 1)).any
    (fun i => (s.data.drop i).take sub.data.length == sub.data)

/-!
Concrete example inputs used to instantiate the theorems.
-/

/-- A sample configuration. -/
def cfg0 : Config :=
  { Host := "db.example.com", Port := "1433", Encrypt := "true",
    AptoraDBName := "aptora", AptoraDBUser := "reader",
    AptoraDBPassword := "pw1",
    ExtensionsDBName := "aptora_extensions", ExtensionsDBUser := "writer",
    ExtensionsDBPassword := "pw2" }

/-- An environment in which every step of the cycle succeeds. -/
def envOk : ConnEnv :=
  { openAptoraErr := none, pingAptoraErr := none, probeWriteSucceeds := false,
    openExtensionsErr := none, pingExtensionsErr := none,
    dbNameResult := Except.ok "aptora_extensions",
    createTableErr := none, insertErr := none,
    freshAptoraId := 1, freshExtensionsId := 2, now := 100 }

/-- An environment in which the Aptora ping fails. -/
def envPingFail : ConnEnv :=
  { envOk with pingAptoraErr := some "connection refused" }

/-- An environment in which the read-write handle reports the Aptora
database name instead of the Extensions one. -/
def envMismatch : ConnEnv :=
  { envOk with dbNameResult := Except.ok "aptora" }

/-- An environment in which the read-only probe write unexpectedly
succeeds. -/
def envProbeOk : ConnEnv :=
  { envOk with probeWriteSucceeds := true }

/-- An invoices table in which exactly 501 rows match the date range
from "a" to "c". -/
def table501 : List InvoiceRow :=
  (List.range 501).map (fun i => ⟨Int.ofNat i, "b", 1, none, 0⟩)

/-- An invoices table in which exactly 500 rows match the date range
from "a" to "c". -/
def table500 : List InvoiceRow :=
  (List.range 500).map (fun i => ⟨Int.ofNat i, "b", 1, none, 0⟩)

/-!
Helper lemmas.
-/

/-- A string does not equal `P ++ e` when its first `P.length` characters
differ from `P`. -/
theorem string_ne_append_of_take_ne (A P e : String)
    (h : A.data.take P.data.length ≠ P.data) : A ≠ P ++ e := by
  intro he
  apply h
  rw [he, String.data_append, List.take_left]

/-- Appending to a nonempty string prefix yields a nonempty string. -/
theorem string_append_ne_empty (P e : String) (h : P.data ≠ []) :
    P ++ e ≠ "" := by
  intro he
  apply h
  have hd : P.data ++ e.data = ("" : String).data := by
    rw [← String.data_append, he]
  exact (List.append_eq_nil.mp hd).1

/-- Full case analysis of one connection cycle: when every step succeeds
the new handle pair is installed, the old handles are closed and one audit
row is appended; when any step fails the manager is merely marked
unhealthy with a nonempty message (handles untouched), only handles opened
by this cycle are closed, and the audit-row count is unchanged. -/
theorem tryConnect_characterization (cfg : Config) (env : ConnEnv)
    (st : ManagerState) (d : ExtDb) :
    (cycleOk env cfg.ExtensionsDBName = true ∧
      (tryConnect cfg env st d).mgr =
        { aptoraDB := some env.freshAptoraId,
          extensionsDB := some env.freshExtensionsId,
          healthy := true, errMsg := "" } ∧
      (tryConnect cfg env st d).closed = st.aptoraDB.toList ++ st.extensionsDB.toList ∧
      (tryConnect cfg env st d).extDb =
        insertHealthCheckRow env.now (createHealthCheckTable d))
    ∨
    (cycleOk env cfg.ExtensionsDBName = false ∧
      (∃ msg, msg ≠ "" ∧ (tryConnect cfg env st d).mgr = setUnhealthy msg st) ∧
      (tryConnect cfg env st d).closed ⊆ [env.freshAptoraId, env.freshExtensionsId] ∧
      ExtDb.rowCount (tryConnect cfg env st d).extDb = ExtDb.rowCount d) := by
  obtain ⟨oa, pa, pw, oe, pe, dbn, cte, ie, fa, fe, now⟩ := env
  cases oa with
  | some e =>
    right
    refine ⟨rfl, ⟨"failed to open Aptora database: " ++ e,
      string_append_ne_empty _ _ (by decide), rfl⟩, by simp [tryConnect], rfl⟩
  | none =>
  cases pa with
  | some e =>
    right
    refine ⟨rfl, ⟨"failed to ping Aptora database: " ++ e,
      string_append_ne_empty _ _ (by decide), rfl⟩, by simp [tryConnect], rfl⟩
  | none =>
  cases pw with
  | true =>
    right
    refine ⟨rfl, ⟨"failed to verify read-only mode for Aptora database: " ++
      "connection is NOT read-only - write operations are allowed",
      string_append_ne_empty _ _ (by decide), ?_⟩, ?_, rfl⟩
    · simp [tryConnect, verifyReadOnly]
    · simp [tryConnect, verifyReadOnly]
  | false =>
  cases oe with
  | some e =>
    right
    refine ⟨rfl, ⟨"failed to open Extensions database: " ++ e,
      string_append_ne_empty _ _ (by decide), ?_⟩, ?_, rfl⟩
    · simp [tryConnect, verifyReadOnly]
    · simp [tryConnect, verifyReadOnly]
  | none =>
  cases pe with
  | some e =>
    right
    refine ⟨rfl, ⟨"failed to ping Extensions database: " ++ e,
      string_append_ne_empty _ _ (by decide), ?_⟩, ?_, rfl⟩
    · simp [tryConnect, verifyReadOnly]
    · simp [tryConnect, verifyReadOnly]
  | none =>
  cases dbn with
  | error e =>
    right
    refine ⟨rfl, ⟨"failed to initialize Extensions schema: " ++
      ("failed to verify database name: " ++ e),
      string_append_ne_empty _ _ (by decide), ?_⟩, ?_, ?_⟩
    · simp [tryConnect, verifyReadOnly, initializeExtensionsSchema]
    · simp [tryConnect, verifyReadOnly, initializeExtensionsSchema]
    · simp [tryConnect, verifyReadOnly, initializeExtensionsSchema]
  | ok a =>
  rcases eq_or_ne a cfg.ExtensionsDBName with ha | ha
  · subst ha
    cases cte with
    | some e =>
      right
      refine ⟨by simp [cycleOk], ⟨"failed to initialize Extensions schema: " ++
        ("failed to create health_check table: " ++ e),
        string_append_ne_empty _ _ (by decide), ?_⟩, ?_, ?_⟩
      · simp [tryConnect, verifyReadOnly, initializeExtensionsSchema]
      · simp [tryConnect, verifyReadOnly, initializeExtensionsSchema]
      · simp [tryConnect, verifyReadOnly, initializeExtensionsSchema]
    | none =>
    cases ie with
    | some e =>
      right
      refine ⟨by simp [cycleOk], ⟨"failed to initialize Extensions schema: " ++
        ("failed to insert health check row: " ++ e),
        string_append_ne_empty _ _ (by decide), ?_⟩, ?_, ?_⟩
      · simp [tryConnect, verifyReadOnly, initializeExtensionsSchema]
      · simp [tryConnect, verifyReadOnly, initializeExtensionsSchema]
      · simp [tryConnect, verifyReadOnly, initializeExtensionsSchema,
          ExtDb.rowCount, createHealthCheckTable]
        cases d.healthCheck <;> simp
    | none =>
      left
      refine ⟨by simp [cycleOk], ?_, ?_, ?_⟩
      · simp [tryConnect, verifyReadOnly, initializeExtensionsSchema]
      · simp [tryConnect, verifyReadOnly, initializeExtensionsSchema]
      · simp [tryConnect, verifyReadOnly, initializeExtensionsSchema]
  · right
    refine ⟨by simp [cycleOk, ha], ⟨"failed to initialize Extensions schema: " ++
      ("safety check failed: expected Extensions database \"" ++ cfg.ExtensionsDBName ++
        "\" but connected to \"" ++ a ++ "\" - refusing to initialize schema"),
      string_append_ne_empty _ _ (by decide), ?_⟩, ?_, ?_⟩
    · simp [tryConnect, verifyReadOnly, initializeExtensionsSchema, ha]
    · simp [tryConnect, verifyReadOnly, initializeExtensionsSchema, ha]
    · simp [tryConnect, verifyReadOnly, initializeExtensionsSchema, ha]

/-- One successful schema initialization grows the audit table by exactly
one row. -/
theorem rowCount_insert_create (n : Nat) (d : ExtDb) :
    ExtDb.rowCount (insertHealthCheckRow n (createHealthCheckTable d)) =
      ExtDb.rowCount d + 1 := by
  cases d with
  | mk hc =>
    cases hc <;> simp [insertHealthCheckRow, createHealthCheckTable, ExtDb.rowCount]

/-!
Claim theorems.
-/

/-- C1: whenever the read-write handle reports (via `SELECT DB_NAME()`) a
database name different from the expected Extensions database name, the
schema initializer returns the mismatch error, leaves the bookkeeping
database untouched, and issues neither the `CREATE TABLE` nor the `INSERT`
statement; a connection cycle reaching that step aborts without touching
the current handles and records the mismatch error in the health
snapshot. -/
theorem dbName_mismatch_blocks_schema_init
    (cfg : Config) (env : ConnEnv) (st : ManagerState) (d : ExtDb)
    (actual : String)
    (hname : env.dbNameResult = Except.ok actual)
    (hne : actual ≠ cfg.ExtensionsDBName)
    (h1 : env.openAptoraErr = none) (h2 : env.pingAptoraErr = none)
    (h3 : env.probeWriteSucceeds = false)
    (h4 : env.openExtensionsErr = none) (h5 : env.pingExtensionsErr = none) :
    (initializeExtensionsSchema env cfg.ExtensionsDBName d).result =
      Except.error ("safety check failed: expected Extensions database \"" ++
        cfg.ExtensionsDBName ++ "\" but connected to \"" ++ actual ++
        "\" - refusing to initialize schema") ∧
    (initializeExtensionsSchema env cfg.ExtensionsDBName d).extDb = d ∧
    (initializeExtensionsSchema env cfg.ExtensionsDBName d).trace =
      [⟨DbOp.querySelectDbName, some 10⟩] ∧
    (∀ i ∈ (tryConnect cfg env st d).trace,
      i.op ≠ DbOp.execCreateHealthCheckTable ∧
      i.op ≠ DbOp.execInsertHealthCheckRow) ∧
    (tryConnect cfg env st d).mgr.aptoraDB = st.aptoraDB ∧
    (tryConnect cfg env st d).mgr.extensionsDB = st.extensionsDB ∧
    (tryConnect cfg env st d).mgr.healthy = false ∧
    (tryConnect cfg env st d).mgr.errMsg =
      "failed to initialize Extensions schema: " ++
      ("safety check failed: expected Extensions database \"" ++
        cfg.ExtensionsDBName ++ "\" but connected to \"" ++ actual ++
        "\" - refusing to initialize schema") := by
  refine ⟨?_, ?_, ?_, ?_, ?_, ?_, ?_, ?_⟩
  · simp [initializeExtensionsSchema, hname, hne]
  · simp [initializeExtensionsSchema, hname, hne]
  · simp [initializeExtensionsSchema, hname, hne]
  · intro i hi
    simp [tryConnect, verifyReadOnly, initializeExtensionsSchema,
      h1, h2, h3, h4, h5, hname, hne] at hi
    rcases hi with h | h | h | h <;> subst h <;> exact ⟨by decide, by decide⟩
  · simp [tryConnect, verifyReadOnly, initializeExtensionsSchema,
      h1, h2, h3, h4, h5, hname, hne, setUnhealthy]
  · simp [tryConnect, verifyReadOnly, initializeExtensionsSchema,
      h1, h2, h3, h4, h5, hname, hne, setUnhealthy]
  · simp [tryConnect, verifyReadOnly, initializeExtensionsSchema,
      h1, h2, h3, h4, h5, hname, hne, setUnhealthy]
  · simp [tryConnect, verifyReadOnly, initializeExtensionsSchema,
      h1, h2, h3, h4, h5, hname, hne, setUnhealthy]

/-- C1 witness: a concrete cycle whose read-write handle reports the Aptora
database name is refused with the mismatch error and without schema
statements. -/
theorem dbName_mismatch_blocks_schema_init_witness :
    (initializeExtensionsSchema envMismatch cfg0.ExtensionsDBName ⟨none⟩).result =
      Except.error ("safety check failed: expected Extensions database \"" ++
        cfg0.ExtensionsDBName ++ "\" but connected to \"" ++ "aptora" ++
        "\" - refusing to initialize schema") ∧
    (initializeExtensionsSchema envMismatch cfg0.ExtensionsDBName ⟨none⟩).trace =
      [⟨DbOp.querySelectDbName, some 10⟩] ∧
    (tryConnect cfg0 envMismatch NewManager ⟨none⟩).mgr.healthy = false ∧
    (tryConnect cfg0 envMismatch NewManager ⟨none⟩).mgr.errMsg =
      "failed to initialize Extensions schema: " ++
      ("safety check failed: expected Extensions database \"" ++
        cfg0.ExtensionsDBName ++ "\" but connected to \"" ++ "aptora" ++
        "\" - refusing to initialize schema") := by
  have h := dbName_mismatch_blocks_schema_init cfg0 envMismatch NewManager ⟨none⟩
    "aptora" rfl (by decide) rfl rfl rfl rfl rfl
  exact ⟨h.1, h.2.2.1, h.2.2.2.2.2.2.1, h.2.2.2.2.2.2.2⟩

/-- C2: the read-only verification issues the probe DDL statement on the
new read-only handle; when the probe fails the handle is accepted as
read-only and the cycle proceeds, and when the probe succeeds the probe
table is dropped, the new handle is closed, the cycle aborts without a
handle swap, and the recorded health error is the distinct NOT-read-only
message — not equal to any open- or ping-failure message. -/
theorem readOnly_probe_verdict
    (cfg : Config) (env : ConnEnv) (st : ManagerState) (d : ExtDb)
    (h1 : env.openAptoraErr = none) (h2 : env.pingAptoraErr = none) :
    (env.probeWriteSucceeds = false →
      (verifyReadOnly env).result = Except.ok () ∧
      (verifyReadOnly env).trace = [⟨DbOp.execCreateProbeTable, some 5⟩]) ∧
    (env.probeWriteSucceeds = true →
      (verifyReadOnly env).result =
        Except.error "connection is NOT read-only - write operations are allowed" ∧
      (verifyReadOnly env).trace =
        [⟨DbOp.execCreateProbeTable, some 5⟩, ⟨DbOp.execDropProbeTable, some 5⟩] ∧
      ⟨DbOp.execDropProbeTable, some 5⟩ ∈ (tryConnect cfg env st d).trace ∧
      (tryConnect cfg env st d).closed = [env.freshAptoraId] ∧
      (tryConnect cfg env st d).mgr.aptoraDB = st.aptoraDB ∧
      (tryConnect cfg env st d).mgr.extensionsDB = st.extensionsDB ∧
      (tryConnect cfg env st d).mgr.healthy = false ∧
      (tryConnect cfg env st d).mgr.errMsg =
        "failed to verify read-only mode for Aptora database: " ++
        "connection is NOT read-only - write operations are allowed" ∧
      containsSubstring (tryConnect cfg env st d).mgr.errMsg "NOT read-only" = true ∧
      (∀ e, (tryConnect cfg env st d).mgr.errMsg ≠
        "failed to open Aptora database: " ++ e) ∧
      (∀ e, (tryConnect cfg env st d).mgr.errMsg ≠
        "failed to ping Aptora database: " ++ e)) := by
  constructor
  · intro hp
    constructor
    · simp [verifyReadOnly, hp]
    · simp [verifyReadOnly, hp]
  · intro hp
    have hmsg : (tryConnect cfg env st d).mgr.errMsg =
        "failed to verify read-only mode for Aptora database: " ++
        "connection is NOT read-only - write operations are allowed" := by
      simp [tryConnect, verifyReadOnly, h1, h2, hp, setUnhealthy]
    refine ⟨by simp [verifyReadOnly, hp], by simp [verifyReadOnly, hp],
      ?_, ?_, ?_, ?_, ?_, hmsg, ?_, ?_, ?_⟩
    · simp [tryConnect, verifyReadOnly, h1, h2, hp]
    · simp [tryConnect, verifyReadOnly, h1, h2, hp]
    · simp [tryConnect, verifyReadOnly, h1, h2, hp, setUnhealthy]
    · simp [tryConnect, verifyReadOnly, h1, h2, hp, setUnhealthy]
    · simp [tryConnect, verifyReadOnly, h1, h2, hp, setUnhealthy]
    · rw [hmsg]; decide
    · intro e; rw [hmsg]
      exact string_ne_append_of_take_ne _ _ _ (by decide)
    · intro e; rw [hmsg]
      exact string_ne_append_of_take_ne _ _ _ (by decide)

/-- C2 witness: a concrete cycle whose probe write unexpectedly succeeds
aborts with the distinct NOT-read-only error and a dropped probe table,
while a concrete cycle whose probe write fails passes verification. -/
theorem readOnly_probe_verdict_witness :
    (verifyReadOnly envOk).result = Except.ok () ∧
    (verifyReadOnly envProbeOk).result =
      Except.error "connection is NOT read-only - write operations are allowed" ∧
    ⟨DbOp.execDropProbeTable, some 5⟩ ∈ (tryConnect cfg0 envProbeOk NewManager ⟨none⟩).trace ∧
    (tryConnect cfg0 envProbeOk NewManager ⟨none⟩).mgr.healthy = false ∧
    (tryConnect cfg0 envProbeOk NewManager ⟨none⟩).mgr.errMsg =
      "failed to verify read-only mode for Aptora database: " ++
      "connection is NOT read-only - write operations are allowed" := by
  have ha := readOnly_probe_verdict cfg0 envOk NewManager ⟨none⟩ rfl rfl
  have hb := readOnly_probe_verdict cfg0 envProbeOk NewManager ⟨none⟩ rfl rfl
  have hbs := hb.2 rfl
  exact ⟨(ha.1 rfl).1, hbs.1, hbs.2.2.1, hbs.2.2.2.2.2.2.1, hbs.2.2.2.2.2.2.2.1⟩

/-- C3: handle replacement is all-or-nothing — when any step of a cycle
fails the manager keeps the previously-current handle fields unchanged
(only health flag and error message are updated, and only handles opened
by this cycle may be closed), and when every step succeeds the new pair is
installed, health flips to true, and exactly the old handles are closed. -/
theorem cycle_failure_preserves_handles
    (cfg : Config) (env : ConnEnv) (st : ManagerState) (d : ExtDb) :
    (cycleOk env cfg.ExtensionsDBName = false →
      (tryConnect cfg env st d).mgr.aptoraDB = st.aptoraDB ∧
      (tryConnect cfg env st d).mgr.extensionsDB = st.extensionsDB ∧
      (tryConnect cfg env st d).mgr.healthy = false ∧
      (tryConnect cfg env st d).closed ⊆ [env.freshAptoraId, env.freshExtensionsId]) ∧
    (cycleOk env cfg.ExtensionsDBName = true →
      (tryConnect cfg env st d).mgr.aptoraDB = some env.freshAptoraId ∧
      (tryConnect cfg env st d).mgr.extensionsDB = some env.freshExtensionsId ∧
      (tryConnect cfg env st d).mgr.healthy = true ∧
      (tryConnect cfg env st d).mgr.errMsg = "" ∧
      (tryConnect cfg env st d).closed = st.aptoraDB.toList ++ st.extensionsDB.toList) := by
  rcases tryConnect_characterization cfg env st d with
    ⟨hok, hm, hc, _⟩ | ⟨hok, ⟨msg, _, hm⟩, hc, _⟩
  · refine ⟨fun hf => absurd hok (by simp [hf]), fun _ => ?_⟩
    rw [hm, hc]
    exact ⟨rfl, rfl, rfl, rfl, rfl⟩
  · refine ⟨fun _ => ?_, fun ht => absurd hok (by simp [ht])⟩
    rw [hm]
    exact ⟨rfl, rfl, rfl, hc⟩

/-- C3 witness: after a concrete failing cycle the (empty) initial handles
are untouched and health is false; after a concrete successful cycle the
new pair is installed. -/
theorem cycle_failure_preserves_handles_witness :
    ((tryConnect cfg0 envPingFail NewManager ⟨none⟩).mgr.aptoraDB = NewManager.aptoraDB ∧
     (tryConnect cfg0 envPingFail NewManager ⟨none⟩).mgr.extensionsDB = NewManager.extensionsDB ∧
     (tryConnect cfg0 envPingFail NewManager ⟨none⟩).mgr.healthy = false ∧
     (tryConnect cfg0 envPingFail NewManager ⟨none⟩).closed ⊆
       [envPingFail.freshAptoraId, envPingFail.freshExtensionsId]) ∧
    ((tryConnect cfg0 envOk NewManager ⟨none⟩).mgr.aptoraDB = some envOk.freshAptoraId ∧
     (tryConnect cfg0 envOk NewManager ⟨none⟩).mgr.extensionsDB = some envOk.freshExtensionsId ∧
     (tryConnect cfg0 envOk NewManager ⟨none⟩).mgr.healthy = true ∧
     (tryConnect cfg0 envOk NewManager ⟨none⟩).mgr.errMsg = "" ∧
     (tryConnect cfg0 envOk NewManager ⟨none⟩).closed =
       NewManager.aptoraDB.toList ++ NewManager.extensionsDB.toList) := by
  exact ⟨(cycle_failure_preserves_handles cfg0 envPingFail NewManager ⟨none⟩).1 (by decide),
    (cycle_failure_preserves_handles cfg0 envOk NewManager ⟨none⟩).2 (by decide)⟩

/-- In every reachable manager state, a true health flag implies both
handle fields are non-nil. -/
theorem reachable_healthy_both_some {st : ManagerState} (h : Reachable st) :
    st.healthy = true → ∃ a b, st.aptoraDB = some a ∧ st.extensionsDB = some b := by
  induction h with
  | init => intro hh; exact absurd hh (by simp [NewManager])
  | step cfg env d hst ih =>
    rcases tryConnect_characterization cfg env _ d with
      ⟨_, hm, _, _⟩ | ⟨_, ⟨msg, _, hm⟩, _, _⟩
    · intro _; rw [hm]; exact ⟨_, _, rfl, rfl⟩
    · rw [hm]; intro hh; exact absurd hh (by simp [setUnhealthy])

/-- C4: in every reachable manager state, `healthy = true` implies both the
read-only and the read-write handle are non-nil; moreover every connection
cycle either leaves both handle fields unchanged or installs both fresh
handles of that same cycle together (with health true and a cleared error),
so the pair is never updated partially. -/
theorem healthy_implies_handle_pair
    (st : ManagerState) (h : Reachable st) (cfg : Config) (env : ConnEnv)
    (d : ExtDb) :
    (st.healthy = true → ∃ a b, st.aptoraDB = some a ∧ st.extensionsDB = some b) ∧
    (((tryConnect cfg env st d).mgr.aptoraDB = st.aptoraDB ∧
      (tryConnect cfg env st d).mgr.extensionsDB = st.extensionsDB) ∨
     ((tryConnect cfg env st d).mgr.aptoraDB = some env.freshAptoraId ∧
      (tryConnect cfg env st d).mgr.extensionsDB = some env.freshExtensionsId ∧
      (tryConnect cfg env st d).mgr.healthy = true ∧
      (tryConnect cfg env st d).mgr.errMsg = "")) := by
  refine ⟨reachable_healthy_both_some h, ?_⟩
  rcases tryConnect_characterization cfg env st d with
    ⟨_, hm, _, _⟩ | ⟨_, ⟨msg, _, hm⟩, _, _⟩
  · right; rw [hm]; exact ⟨rfl, rfl, rfl, rfl⟩
  · left; rw [hm]; exact ⟨rfl, rfl⟩

/-- C4 witness: at the freshly constructed manager and a concrete
successful cycle, the pairing disjunction holds (the successful cycle
installs both fresh handles together). -/
theorem healthy_implies_handle_pair_witness :
    ((tryConnect cfg0 envOk NewManager ⟨none⟩).mgr.aptoraDB = NewManager.aptoraDB ∧
     (tryConnect cfg0 envOk NewManager ⟨none⟩).mgr.extensionsDB = NewManager.extensionsDB) ∨
    ((tryConnect cfg0 envOk NewManager ⟨none⟩).mgr.aptoraDB = some envOk.freshAptoraId ∧
     (tryConnect cfg0 envOk NewManager ⟨none⟩).mgr.extensionsDB = some envOk.freshExtensionsId ∧
     (tryConnect cfg0 envOk NewManager ⟨none⟩).mgr.healthy = true ∧
     (tryConnect cfg0 envOk NewManager ⟨none⟩).mgr.errMsg = "") := by
  exact (healthy_implies_handle_pair NewManager Reachable.init cfg0 envOk ⟨none⟩).2

/-- C5: the bookkeeping table creation never drops or updates existing
rows (create-if-not-exists is the identity on an existing table); every
successful cycle appends exactly the one audit row with the cycle's
current timestamp; and N consecutive successful cycles grow the audit
table by exactly N rows. -/
theorem audit_rows_per_cycle
    (cfg : Config) (env : ConnEnv) (st : ManagerState) (d : ExtDb)
    (rows : List Nat) (envs : List ConnEnv) (st0 : ManagerState) (d0 : ExtDb)
    (henv : cycleOk env cfg.ExtensionsDBName = true)
    (hall : ∀ e ∈ envs, cycleOk e cfg.ExtensionsDBName = true) :
    createHealthCheckTable ⟨some rows⟩ = ⟨some rows⟩ ∧
    (tryConnect cfg env st d).extDb.healthCheck =
      some ((d.healthCheck.getD []) ++ [env.now]) ∧
    ExtDb.rowCount (runCycles cfg envs st0 d0).2 =
      ExtDb.rowCount d0 + envs.length := by
  refine ⟨rfl, ?_, ?_⟩
  · rcases tryConnect_characterization cfg env st d with
      ⟨_, _, _, he⟩ | ⟨hok, _, _, _⟩
    · rw [he]
      cases d with
      | mk hc =>
        cases hc <;> simp [insertHealthCheckRow, createHealthCheckTable]
    · rw [henv] at hok; cases hok
  · clear henv
    induction envs generalizing st0 d0 with
    | nil => simp [runCycles, List.foldl]
    | cons e es ih =>
      have he := hall e (List.mem_cons_self e es)
      have hrest : ∀ x ∈ es, cycleOk x cfg.ExtensionsDBName = true :=
        fun x hx => hall x (List.mem_cons_of_mem e hx)
      have hstep : runCycles cfg (e :: es) st0 d0 =
          runCycles cfg es (tryConnect cfg e st0 d0).mgr (tryConnect cfg e st0 d0).extDb := by
        simp [runCycles, List.foldl]
      rw [hstep]
      have hone : ExtDb.rowCount (tryConnect cfg e st0 d0).extDb =
          ExtDb.rowCount d0 + 1 := by
        rcases tryConnect_characterization cfg e st0 d0 with
          ⟨_, _, _, hext⟩ | ⟨hok, _, _, _⟩
        · rw [hext, rowCount_insert_create]
        · rw [he] at hok; cases hok
      have hih := ih (tryConnect cfg e st0 d0).mgr (tryConnect cfg e st0 d0).extDb hrest
      rw [hih, hone, List.length_cons]
      omega

/-- C5 witness: three concrete successful cycles starting from an absent
bookkeeping table yield exactly three audit rows. -/
theorem audit_rows_per_cycle_witness :
    createHealthCheckTable ⟨some [100]⟩ = ⟨some [100]⟩ ∧
    ExtDb.rowCount (runCycles cfg0 [envOk, envOk, envOk] NewManager ⟨none⟩).2 =
      ExtDb.rowCount (⟨none⟩ : ExtDb) + [envOk, envOk, envOk].length := by
  have h := audit_rows_per_cycle cfg0 envOk NewManager ⟨none⟩ [100]
    [envOk, envOk, envOk] NewManager ⟨none⟩ (by decide) (by decide)
  exact ⟨h.1, h.2.2⟩

/-- C6 counterexample: in a concrete fully-successful connection cycle the
liveness pings are issued, they carry no timeout at all (the Go code calls
`Ping()` with no context, unlike the probe and schema statements which get
5- and 10-second contexts), and in particular no ping is issued under an
approximately-5-second timeout. -/
theorem ping_without_timeout_counterexample :
    ((tryConnect cfg0 envOk NewManager ⟨none⟩).trace.contains
      ⟨DbOp.pingAptora, none⟩ = true) ∧
    ((tryConnect cfg0 envOk NewManager ⟨none⟩).trace.contains
      ⟨DbOp.pingExtensions, none⟩ = true) ∧
    ((tryConnect cfg0 envOk NewManager ⟨none⟩).trace.all
      (fun i => !(i.op == DbOp.pingAptora || i.op == DbOp.pingExtensions) ||
        i.timeoutSeconds == none) = true) ∧
    ((tryConnect cfg0 envOk NewManager ⟨none⟩).trace.contains
      ⟨DbOp.pingAptora, some 5⟩ = false) := by
  decide

/-- C6 (amended): the liveness check on the newly opened handle is a
round-trip ping issued without any timeout context; when it fails the
cycle aborts with only that ping in the trace, the prior handles are
untouched, the failure is recorded in the health error, and any later tick
of the loop in the resulting unhealthy state runs a fresh connection
attempt. -/
theorem ping_failure_aborts_cycle
    (cfg : Config) (env : ConnEnv) (st : ManagerState) (d : ExtDb) (e : String)
    (h1 : env.openAptoraErr = none) (h2 : env.pingAptoraErr = some e) :
    (tryConnect cfg env st d).trace = [⟨DbOp.pingAptora, none⟩] ∧
    (tryConnect cfg env st d).mgr.aptoraDB = st.aptoraDB ∧
    (tryConnect cfg env st d).mgr.extensionsDB = st.extensionsDB ∧
    (tryConnect cfg env st d).mgr.healthy = false ∧
    (tryConnect cfg env st d).mgr.errMsg = "failed to ping Aptora database: " ++ e ∧
    (∀ p : ManagerState × ExtDb × Nat, p.1.healthy = false → ∀ env2,
      connectLoopTick cfg p env2 =
        ((tryConnect cfg env2 p.1 p.2.1).mgr,
         (tryConnect cfg env2 p.1 p.2.1).extDb, p.2.2 + 1)) := by
  refine ⟨?_, ?_, ?_, ?_, ?_, ?_⟩
  · simp [tryConnect, h1, h2]
  · simp [tryConnect, h1, h2, setUnhealthy]
  · simp [tryConnect, h1, h2, setUnhealthy]
  · simp [tryConnect, h1, h2, setUnhealthy]
  · simp [tryConnect, h1, h2, setUnhealthy]
  · intro p hp env2
    simp [connectLoopTick, hp]

/-- C6 witness: the concrete ping-failure environment aborts the cycle
with only the (context-free) ping issued and records the ping error. -/
theorem ping_failure_aborts_cycle_witness :
    (tryConnect cfg0 envPingFail NewManager ⟨none⟩).trace =
      [⟨DbOp.pingAptora, none⟩] ∧
    (tryConnect cfg0 envPingFail NewManager ⟨none⟩).mgr.healthy = false ∧
    (tryConnect cfg0 envPingFail NewManager ⟨none⟩).mgr.errMsg =
      "failed to ping Aptora database: " ++ "connection refused" := by
  have h := ping_failure_aborts_cycle cfg0 envPingFail NewManager ⟨none⟩
    "connection refused" rfl rfl
  exact ⟨h.1, h.2.2.2.1, h.2.2.2.2.1⟩

/-- Running the retry loop from an unhealthy state with a nonempty error
message through ticks whose cycles all fail keeps the manager unhealthy
with a nonempty error message, attempting one reconnection per tick. -/
theorem foldl_tick_all_fail (cfg : Config) (ticks : List ConnEnv)
    (hticks : ∀ e ∈ ticks, cycleOk e cfg.ExtensionsDBName = false) :
    ∀ st d n, st.healthy = false → st.errMsg ≠ "" →
      (ticks.foldl (connectLoopTick cfg) (st, d, n)).1.healthy = false ∧
      (ticks.foldl (connectLoopTick cfg) (st, d, n)).1.errMsg ≠ "" ∧
      (ticks.foldl (connectLoopTick cfg) (st, d, n)).2.2 = n + ticks.length := by
  induction ticks with
  | nil => intro st d n hh he; exact ⟨hh, he, rfl⟩
  | cons e es ih =>
    intro st d n hh he
    have hefail := hticks e (List.mem_cons_self e es)
    have hrest : ∀ x ∈ es, cycleOk x cfg.ExtensionsDBName = false :=
      fun x hx => hticks x (List.mem_cons_of_mem e hx)
    have htick : connectLoopTick cfg (st, d, n) e =
        ((tryConnect cfg e st d).mgr, (tryConnect cfg e st d).extDb, n + 1) := by
      simp [connectLoopTick, hh]
    rcases tryConnect_characterization cfg e st d with
      ⟨hok, _, _, _⟩ | ⟨_, ⟨msg, hmne, hm⟩, _, _⟩
    · rw [hefail] at hok; cases hok
    · have h1 : (tryConnect cfg e st d).mgr.healthy = false := by
        rw [hm]; rfl
      have h2 : (tryConnect cfg e st d).mgr.errMsg ≠ "" := by
        rw [hm]; exact hmne
      have := ih hrest (tryConnect cfg e st d).mgr (tryConnect cfg e st d).extDb
        (n + 1) h1 h2
      rw [List.foldl_cons, htick]
      exact ⟨this.1, this.2.1, by rw [this.2.2, List.length_cons]; omega⟩

/-- C7: the loop runs one connection attempt at construction and then one
per 30-second tick while unhealthy; under permanent failure the manager
remains unhealthy with a recorded error after any number of ticks, with
exactly one retry per tick, and the loop state stays well defined (the
process never dies). -/
theorem connect_loop_retries_and_survives
    (cfg : Config) (first : ConnEnv) (ticks : List ConnEnv) (d0 : ExtDb)
    (hfirst : cycleOk first cfg.ExtensionsDBName = false)
    (hticks : ∀ e ∈ ticks, cycleOk e cfg.ExtensionsDBName = false) :
    tickerIntervalSeconds = 30 ∧
    connectLoopRun cfg first [] d0 =
      ((tryConnect cfg first NewManager d0).mgr,
       (tryConnect cfg first NewManager d0).extDb, 1) ∧
    (connectLoopRun cfg first ticks d0).1.healthy = false ∧
    (connectLoopRun cfg first ticks d0).1.errMsg ≠ "" ∧
    (connectLoopRun cfg first ticks d0).2.2 = 1 + ticks.length := by
  rcases tryConnect_characterization cfg first NewManager d0 with
    ⟨hok, _, _, _⟩ | ⟨_, ⟨msg, hmne, hm⟩, _, _⟩
  · rw [hfirst] at hok; cases hok
  · have h1 : (tryConnect cfg first NewManager d0).mgr.healthy = false := by
      rw [hm]; rfl
    have h2 : (tryConnect cfg first NewManager d0).mgr.errMsg ≠ "" := by
      rw [hm]; exact hmne
    have hrun := foldl_tick_all_fail cfg ticks hticks
      (tryConnect cfg first NewManager d0).mgr
      (tryConnect cfg first NewManager d0).extDb 1 h1 h2
    exact ⟨rfl, rfl, hrun.1, hrun.2.1, hrun.2.2⟩

/-- C7 witness: with a concrete permanently failing environment the loop
stays unhealthy through two ticks, having attempted three cycles in
total. -/
theorem connect_loop_retries_and_survives_witness :
    tickerIntervalSeconds = 30 ∧
    (connectLoopRun cfg0 envPingFail [envPingFail, envPingFail] ⟨none⟩).1.healthy = false ∧
    (connectLoopRun cfg0 envPingFail [envPingFail, envPingFail] ⟨none⟩).1.errMsg ≠ "" ∧
    (connectLoopRun cfg0 envPingFail [envPingFail, envPingFail] ⟨none⟩).2.2 =
      1 + [envPingFail, envPingFail].length := by
  have h := connect_loop_retries_and_survives cfg0 envPingFail
    [envPingFail, envPingFail] ⟨none⟩ (by decide) (by decide)
  exact ⟨h.1, h.2.2.1, h.2.2.2.1, h.2.2.2.2⟩

/-- C8: the health endpoint returns exactly the two-field object
`status`/`error` (HTTP 503) when the snapshot is unhealthy — the error
value being precisely the manager's human-readable diagnostic string — and
exactly the one-field `status` object (HTTP 200) when healthy. -/
theorem handleHealth_exact_shape (st : ManagerState) :
    (st.healthy = true → handleHealth st = (200, [("status", "healthy")])) ∧
    (st.healthy = false →
      handleHealth st = (503, [("status", "unhealthy"), ("error", st.errMsg)])) ∧
    (IsHealthy st).2 = st.errMsg := by
  refine ⟨fun h => ?_, fun h => ?_, rfl⟩
  · simp [handleHealth, IsHealthy, h]
  · simp [handleHealth, IsHealthy, h]

/-- C8 witness: the freshly constructed (unhealthy, empty-error) manager
yields exactly the unhealthy two-field object, and a manager after a
concrete successful cycle yields exactly the healthy one-field object. -/
theorem handleHealth_exact_shape_witness :
    handleHealth NewManager = (503, [("status", "unhealthy"), ("error", NewManager.errMsg)]) ∧
    handleHealth (tryConnect cfg0 envOk NewManager ⟨none⟩).mgr =
      (200, [("status", "healthy")]) := by
  exact ⟨(handleHealth_exact_shape NewManager).2.1 rfl,
    (handleHealth_exact_shape (tryConnect cfg0 envOk NewManager ⟨none⟩).mgr).1 (by decide)⟩

/-- A healthy loop state is a fixed point of any sequence of ticks: the
gate `if !healthy` means no further connection attempt ever runs. -/
theorem foldl_tick_healthy_fixed (cfg : Config) (ticks : List ConnEnv) :
    ∀ p : ManagerState × ExtDb × Nat, p.1.healthy = true →
      ticks.foldl (connectLoopTick cfg) p = p := by
  induction ticks with
  | nil => intro p _; rfl
  | cons e es ih =>
    intro p h
    rw [List.foldl_cons]
    have hstep : connectLoopTick cfg p e = p := by
      simp [connectLoopTick, h]
    rw [hstep]
    exact ih p h

/-- C9: once the manager is healthy, every further tick is a no-op — no
connection cycle ever runs again, the attempt counter stays put, and the
installed handles are never replaced, regardless of the outcomes any later
environment would produce; in particular after a successful first cycle
the whole loop result is the first cycle's result with exactly one attempt
made. -/
theorem healthy_state_is_permanent
    (cfg : Config) (first : ConnEnv) (ticks : List ConnEnv) (d0 : ExtDb)
    (st : ManagerState) (d : ExtDb) (n : Nat)
    (hfirst : cycleOk first cfg.ExtensionsDBName = true)
    (hst : st.healthy = true) :
    ticks.foldl (connectLoopTick cfg) (st, d, n) = (st, d, n) ∧
    connectLoopRun cfg first ticks d0 =
      ((tryConnect cfg first NewManager d0).mgr,
       (tryConnect cfg first NewManager d0).extDb, 1) ∧
    (connectLoopRun cfg first ticks d0).1.healthy = true ∧
    (connectLoopRun cfg first ticks d0).2.2 = 1 := by
  have habs := foldl_tick_healthy_fixed cfg ticks (st, d, n) hst
  have hhealthy : (tryConnect cfg first NewManager d0).mgr.healthy = true := by
    rcases tryConnect_characterization cfg first NewManager d0 with
      ⟨_, hm, _, _⟩ | ⟨hok, _, _, _⟩
    · rw [hm]
    · rw [hfirst] at hok; cases hok
  have hrun : connectLoopRun cfg first ticks d0 =
      ((tryConnect cfg first NewManager d0).mgr,
       (tryConnect cfg first NewManager d0).extDb, 1) := by
    unfold connectLoopRun
    exact foldl_tick_healthy_fixed cfg ticks _ hhealthy
  exact ⟨habs, hrun, by rw [hrun]; exact hhealthy, by rw [hrun]⟩

/-- C9 witness: after a concrete successful first cycle, two ticks of a
now-failing environment change nothing — the loop result is the first
cycle's result and exactly one attempt was ever made. -/
theorem healthy_state_is_permanent_witness :
    connectLoopRun cfg0 envOk [envPingFail, envPingFail] ⟨none⟩ =
      ((tryConnect cfg0 envOk NewManager ⟨none⟩).mgr,
       (tryConnect cfg0 envOk NewManager ⟨none⟩).extDb, 1) ∧
    (connectLoopRun cfg0 envOk [envPingFail, envPingFail] ⟨none⟩).1.healthy = true ∧
    (connectLoopRun cfg0 envOk [envPingFail, envPingFail] ⟨none⟩).2.2 = 1 := by
  have h := healthy_state_is_permanent cfg0 envOk [envPingFail, envPingFail]
    ⟨none⟩ (tryConnect cfg0 envOk NewManager ⟨none⟩).mgr ⟨none⟩ 0
    (by decide) (by decide)
  exact ⟨h.2.1, h.2.2.1, h.2.2.2⟩

/-- C10: with a connected database, both dates present and a well-formed
employee filter, a request matching strictly more than 500 invoices is
rejected with HTTP 400 and the narrower-filter error message without the
main query ever running, while a request matching exactly 500 invoices is
served normally (HTTP 200 with the matching rows, main query executed). -/
theorem invoices_500_limit
    (hid : Nat) (table : List InvoiceRow) (sd ed emp : String)
    (empFilter : Option Int)
    (hsd : sd ≠ "") (hed : ed ≠ "")
    (hemp : (if emp = "" then some none else (emp.toInt?).map some) = some empFilter) :
    ((table.filter (invoiceMatches sd ed empFilter)).length > 500 →
      handleInvoices (some hid) table false false sd ed emp =
        { status := 400,
          body := InvoicesBody.errorObj
            "query would return more than 500 invoices, please use a narrower filter",
          mainQueryExecuted := false }) ∧
    ((table.filter (invoiceMatches sd ed empFilter)).length = 500 →
      handleInvoices (some hid) table false false sd ed emp =
        { status := 200,
          body := InvoicesBody.invoicesObj
            (sortInvoices (table.filter (invoiceMatches sd ed empFilter))),
          mainQueryExecuted := true }) := by
  constructor
  · intro hcount
    simp [handleInvoices, hsd, hed, hemp, hcount]
  · intro hcount
    simp [handleInvoices, hsd, hed, hemp, hcount]

set_option maxRecDepth 40000 in
/-- C10 witness: a concrete 501-row match is rejected with the
narrower-filter error and no main query, and a concrete 500-row match is
served normally. -/
theorem invoices_500_limit_witness :
    (table501.filter (invoiceMatches "a" "c" none)).length > 500 ∧
    handleInvoices (some 7) table501 false false "a" "c" "" =
      { status := 400,
        body := InvoicesBody.errorObj
          "query would return more than 500 invoices, please use a narrower filter",
        mainQueryExecuted := false } ∧
    (table500.filter (invoiceMatches "a" "c" none)).length = 500 ∧
    handleInvoices (some 7) table500 false false "a" "c" "" =
      { status := 200,
        body := InvoicesBody.invoicesObj
          (sortInvoices (table500.filter (invoiceMatches "a" "c" none))),
        mainQueryExecuted := true } := by
  have h1 := invoices_500_limit 7 table501 "a" "c" "" none (by decide) (by decide) rfl
  have h2 := invoices_500_limit 7 table500 "a" "c" "" none (by decide) (by decide) rfl
  have hc1 : (table501.filter (invoiceMatches "a" "c" none)).length > 500 := by decide
  have hc2 : (table500.filter (invoiceMatches "a" "c" none)).length = 500 := by decide
  exact ⟨hc1, h1.1 hc1, hc2, h2.2 hc2⟩

end AptoraExtensions
